import Mathlib

/-!
Verification of the kernel-dispatch core of gocl (`src/gocl/gocl-kernel.c`),
a GObject wrapper around OpenCL kernels.  The OpenCL driver primitives
(`clEnqueueNDRangeKernel`, `clSetKernelArg`, `clWaitForEvents`) are modelled
as mock functions supplied by the theorems; each call the wrapper makes to
them is recorded so that theorems can speak about what was passed.
`gocl-event.c`, `gocl-error.c` and `gocl-device.c` are not part of the
sources; the helpers taken from them are modelled from the specification and
marked as such in their doc comments.
-/

/-- A three-slot work-size vector, `typedef gsize WorkSize[3]` in
`gocl-kernel.c`.  Slot values are `gsize` (64-bit) machine words. -/
structure WorkSize where
  s1 : Nat
  s2 : Nat
  s3 : Nat
deriving DecidableEq, Repr

/-- The all-zero work-size vector. -/
def WorkSize.zero : WorkSize := ⟨0, 0, 0⟩

/-- The C struct `_GoclKernelPrivate`: the mutable state of one kernel object.
`kernel`, `name` and `program` are opaque handles set at construction. -/
structure GoclKernelPrivate where
  kernel : Nat
  name : String
  program : Nat
  global_work_size : WorkSize
  local_work_size : WorkSize
  work_dim : Nat
deriving DecidableEq, Repr

/-- The call `memset (&arr, 0, 3)` on a `gsize[3]` array: only the first three BYTES
are cleared, i.e. (little-endian) the low 24 bits of the first slot; the
remaining five bytes of slot one and all of slots two and three are
untouched.  The source uses byte count 3 where `sizeof (WorkSize)` (24) was
presumably meant. -/
def memset_zero_3_bytes (w : WorkSize) : WorkSize :=
  { w with s1 := w.s1 - w.s1 % 2 ^ 24 }

/-- The function `gocl_kernel_init`: runs on the instance memory already zero-filled by
`g_type_create_instance` (GObject guarantees zeroed private data), sets the
work dimension to 1 and `memset`s 3 bytes of each work-size array. -/
def gocl_kernel_init (s : GoclKernelPrivate) : GoclKernelPrivate :=
  { s with
    work_dim := 1
    global_work_size := memset_zero_3_bytes s.global_work_size
    local_work_size := memset_zero_3_bytes s.local_work_size }

/-- The setter `gocl_kernel_set_work_dimension`.  The `work_dim` parameter is a
`guint8`, so its value is below 256.  `g_return_if_fail` makes the function
return without touching the state when the contract `work_dim > 0 &&
work_dim <= 3` fails; the Bool in the result records whether that
assertion-style contract violation was reported. -/
def gocl_kernel_set_work_dimension (s : GoclKernelPrivate) (work_dim : Nat) :
    GoclKernelPrivate × Bool :=
  if ¬ (work_dim > 0 ∧ work_dim ≤ 3) then (s, true)
  else ({ s with work_dim := work_dim }, false)

/-- The setter `gocl_kernel_set_global_work_size`: stores its three `gsize` arguments
into the three slots of the global work-size vector. -/
def gocl_kernel_set_global_work_size (s : GoclKernelPrivate)
    (size1 size2 size3 : Nat) : GoclKernelPrivate :=
  { s with global_work_size := ⟨size1, size2, size3⟩ }

/-- The setter `gocl_kernel_set_local_work_size`: stores its three `gsize` arguments
into the three slots of the local work-size vector. -/
def gocl_kernel_set_local_work_size (s : GoclKernelPrivate)
    (size1 size2 size3 : Nat) : GoclKernelPrivate :=
  { s with local_work_size := ⟨size1, size2, size3⟩ }

/-- Modelled from the spec: the outcome state of a CompletionToken
(`GoclEvent`, whose source `gocl-event.c` is not under src/).  §3: "outcome
state {Pending, Resolved-Success, Resolved-Error(error-detail)}"; the error
detail carries the numeric native error code. -/
inductive EventState
  | pending
  | resolvedSuccess
  | resolvedError (code : Int)
deriving DecidableEq, Repr

/-- Modelled from the spec: a `GoclEvent` / CompletionToken (`gocl-event.c`
is not under src/).  §3: it holds an owning-queue reference, an optional
native completion handle, an outcome state, "an optional resolver function
to invoke exactly once at resolution" (here: whether the resolver is still
attached, plus how many times it has been invoked) and "a snapshot of the
DependencyList it was created with (for lifetime retention, not
re-evaluation)" (here: the native handles of those dependencies). -/
structure GoclEvent where
  queue : Option Nat
  native : Option Nat
  state : EventState
  hasResolver : Bool
  resolverInvocations : Nat
  waitListSnapshot : List Nat
deriving DecidableEq, Repr

/-- Modelled from the spec: `g_object_new (GOCL_TYPE_EVENT, "queue", q,
"event", e, NULL)`.  §4.1 `create_pending`: a fresh token in Pending state
bound to a queue, with its (default) resolver attached and never yet
invoked. -/
def gocl_event_new (queue : Option Nat) (native : Option Nat) : GoclEvent :=
  { queue := queue
    native := native
    state := .pending
    hasResolver := true
    resolverInvocations := 0
    waitListSnapshot := [] }

/-- Modelled from the spec: `gocl_event_steal_resolver_func` (§4.1
`steal_resolver`): "detaches and returns the resolver function, clearing it
from the token".  Returns the updated token and whether a resolver was
still attached (and hence returned). -/
def gocl_event_steal_resolver_func (e : GoclEvent) : GoclEvent × Bool :=
  ({ e with hasResolver := false }, e.hasResolver)

/-- Modelled from the spec: invoking the resolver function obtained from
`steal_resolver` with `(token, error)`.  §4.1: the resolver is the same one
the happy path would have invoked; resolution "transitions state" to
Resolved-Error when an error is given (Resolved-Success otherwise) and the
resolver runs exactly once, synchronously — counted here in
`resolverInvocations`. -/
def invoke_resolver_func (e : GoclEvent) (error : Option Int) : GoclEvent :=
  { e with
    state := match error with
             | some code => .resolvedError code
             | none => .resolvedSuccess
    resolverInvocations := e.resolverInvocations + 1 }

/-- Modelled from the spec: `gocl_event_set_event_wait_list` (§3
DependencyList lifecycle): stores a snapshot of the dependency list on the
token for lifetime retention; here the dependencies' native handles. -/
def gocl_event_set_event_wait_list (e : GoclEvent) (l : List GoclEvent) :
    GoclEvent :=
  { e with waitListSnapshot := l.map (fun d => d.native.getD 0) }

/-- Modelled from the spec: `gocl_event_list_to_array` (`gocl-event.c` is
not under src/).  §4.2 `to_wait_handles`: "projects each token's native
completion handle into a flat array acceptable to the native submission
primitive", and "a null/empty list maps to (no-array, 0)".  Returns the
(optional) array and the count delivered through the out parameter. -/
def gocl_event_list_to_array (l : List GoclEvent) :
    Option (List Nat) × Nat :=
  if l.isEmpty then (none, 0)
  else (some (l.map (fun e => e.native.getD 0)), l.length)

/-- Modelled from the spec: `gocl_error_check_opencl` (`gocl-error.c` is not
under src/).  §7: "any failure code returned by the underlying ... primitives
[is] propagated verbatim as a structured error with the native code
preserved"; code 0 is success.  Returns the `GError` it fills in: `some
code` exactly when `err_code` is a failure. -/
def gocl_error_check_opencl (err_code : Int) : Option Int :=
  if err_code = 0 then none else some err_code

/-- Modelled from the spec: `gocl_error_check_opencl_internal` — same check
without handing the structured error to the caller; `true` iff `err_code`
is a failure code. -/
def gocl_error_check_opencl_internal (err_code : Int) : Bool :=
  err_code ≠ 0

/-- Modelled from the spec: the slice of `GoclDevice` the dispatch core
needs (`gocl-device.c` is not under src/).  §6: the device provider
"supplies, per device, a default ExecutionQueue ... must report failure
(absent queue) distinctly"; `gocl_device_get_default_queue` hence yields an
optional queue handle. -/
structure GoclDevice where
  default_queue : Option Nat
deriving DecidableEq, Repr

/-- One call to the native submission primitive `clEnqueueNDRangeKernel`,
with the arguments exactly as the wrapper passes them: a NULL work-size
pointer is `none`, a NULL wait-list array is `none`. -/
structure EnqueueCall where
  queue : Nat
  kernel : Nat
  work_dim : Nat
  global_work_offset : Option WorkSize
  global_work_size : Option WorkSize
  local_work_size : Option WorkSize
  num_events_in_wait_list : Nat
  event_wait_list : Option (List Nat)
deriving DecidableEq, Repr

/-- Result of `gocl_kernel_run_in_device_sync`, together with the recorded
interaction with the native layer: the submission call made (if any), the
native handle passed to `clWaitForEvents` (if reached), the status
`clWaitForEvents` reported (the source discards it), and the handle passed
to `clReleaseEvent`. -/
structure SyncRunResult where
  result : Bool
  call : Option EnqueueCall
  waitedOn : Option Nat
  waitStatus : Option Int
  released : Option Nat
deriving DecidableEq, Repr

/-- The function `gocl_kernel_run_in_device_sync`.  `enqueue` mocks
`clEnqueueNDRangeKernel` (returning the error code and the out `cl_event`
handle); `waitErr` mocks the status `clWaitForEvents` returns — the source
ignores that status.  Faithful to the source: fail when the device has no
default queue; convert the wait list; submit with the work-size vectors
passed as NULL when their first slot is 0 and the wait-list count taken
from `g_list_length`; fail on a submission error; otherwise wait on and
release the returned event and report success. -/
def gocl_kernel_run_in_device_sync (self : GoclKernelPrivate)
    (device : GoclDevice) (event_wait_list : List GoclEvent)
    (enqueue : EnqueueCall → Int × Nat) (waitErr : Int) : SyncRunResult :=
  match device.default_queue with
  | none =>
      { result := false, call := none, waitedOn := none, waitStatus := none
        released := none }
  | some q =>
      let arr := (gocl_event_list_to_array event_wait_list).1
      let call : EnqueueCall :=
        { queue := q
          kernel := self.kernel
          work_dim := self.work_dim
          global_work_offset := none
          global_work_size :=
            if self.global_work_size.s1 = 0 then none
            else some self.global_work_size
          local_work_size :=
            if self.local_work_size.s1 = 0 then none
            else some self.local_work_size
          num_events_in_wait_list := event_wait_list.length
          event_wait_list := arr }
      let ee := enqueue call
      if gocl_error_check_opencl_internal ee.1 then
        { result := false, call := some call, waitedOn := none
          waitStatus := none, released := none }
      else
        { result := true, call := some call, waitedOn := some ee.2
          waitStatus := some waitErr, released := some ee.2 }

/-- Result of `gocl_kernel_run_in_device`: the returned `GoclEvent` pointer
(NULL modelled as `none`) and the submission call made (if any). -/
structure AsyncRunResult where
  event : Option GoclEvent
  call : Option EnqueueCall
deriving DecidableEq, Repr

/-- The function `gocl_kernel_run_in_device`.  Faithful to the source: convert the wait
list (keeping the out-parameter length); `goto out` with no error set when
the device has no default queue — so `_event` stays NULL; otherwise submit,
and on success wrap the native handle in a new event, snapshot the wait
list and steal (discard) the resolver; on a submission error build a fresh
event with no native handle, steal its resolver and invoke it inline with
the error before returning.  (`gocl_event_idle_unref` only schedules a
deferred reference drop and is not modelled.) -/
def gocl_kernel_run_in_device (self : GoclKernelPrivate)
    (device : GoclDevice) (event_wait_list : List GoclEvent)
    (enqueue : EnqueueCall → Int × Nat) : AsyncRunResult :=
  let conv := gocl_event_list_to_array event_wait_list
  match device.default_queue with
  | none => { event := none, call := none }
  | some q =>
      let call : EnqueueCall :=
        { queue := q
          kernel := self.kernel
          work_dim := self.work_dim
          global_work_offset := none
          global_work_size :=
            if self.global_work_size.s1 = 0 then none
            else some self.global_work_size
          local_work_size :=
            if self.local_work_size.s1 = 0 then none
            else some self.local_work_size
          num_events_in_wait_list := conv.2
          event_wait_list := conv.1 }
      let ee := enqueue call
      match gocl_error_check_opencl ee.1 with
      | none =>
          let e0 := gocl_event_new (some q) (some ee.2)
          let e1 := gocl_event_set_event_wait_list e0 event_wait_list
          let e2 := (gocl_event_steal_resolver_func e1).1
          { event := some e2, call := some call }
      | some code =>
          let e0 := gocl_event_new (some q) none
          let e1 := (gocl_event_steal_resolver_func e0).1
          let e2 := invoke_resolver_func e1 (some code)
          { event := some e2, call := some call }

/-- One call to the native argument-setting primitive `clSetKernelArg`,
with the arguments exactly as the wrapper passes them (`buffer` is the
caller's opaque pointer). -/
structure SetArgCall where
  kernel : Nat
  index : Nat
  size : Nat
  buffer : Nat
deriving DecidableEq, Repr

/-- The function `gocl_kernel_set_argument`.  `setArg` mocks `clSetKernelArg` (returning
its error code).  Returns the success flag together with the recorded call. -/
def gocl_kernel_set_argument (self : GoclKernelPrivate) (index : Nat)
    (size : Nat) (buffer : Nat) (setArg : SetArgCall → Int) :
    Bool × SetArgCall :=
  let call : SetArgCall :=
    { kernel := self.kernel, index := index, size := size, buffer := buffer }
  let err_code := setArg call
  (! gocl_error_check_opencl_internal err_code, call)

/-- The constant `sizeof (cl_uint)`: the native 32-bit integer size in bytes. -/
def sizeof_cl_uint : Nat := 4

/-- The function `gocl_kernel_set_argument_int32`: delegates to
`gocl_kernel_set_argument` with size `sizeof (cl_uint) * num_elements`,
computed in `gsize` (64-bit unsigned, wrapping) arithmetic. -/
def gocl_kernel_set_argument_int32 (self : GoclKernelPrivate) (index : Nat)
    (num_elements : Nat) (buffer : Nat) (setArg : SetArgCall → Int) :
    Bool × SetArgCall :=
  gocl_kernel_set_argument self index
    ((sizeof_cl_uint * num_elements) % 2 ^ 64) buffer setArg

/-- A concrete kernel state used to instantiate witnesses: configured with
work dimension 2 and global size (32, 32, 0), local size (2, 2, 0). -/
def sampleKernel : GoclKernelPrivate :=
  { kernel := 42
    name := "my_kernel"
    program := 7
    global_work_size := ⟨32, 32, 0⟩
    local_work_size := ⟨2, 2, 0⟩
    work_dim := 2 }

/-- A concrete kernel state whose global and local sizes are left at their
zero defaults, so the run functions pass NULL for both. -/
def sampleKernelUnsized : GoclKernelPrivate :=
  { kernel := 42
    name := "my_kernel"
    program := 7
    global_work_size := WorkSize.zero
    local_work_size := WorkSize.zero
    work_dim := 1 }

/-- Claim C5: calling the work-dimension setter with a value outside [1,3]
(0, or greater than 3) reports an assertion-style contract violation and
leaves the stored dimensionality (indeed the whole state) unchanged; a
value in [1,3] is stored exactly and no violation is reported. -/
theorem set_work_dimension_contract (s : GoclKernelPrivate) (w : Nat)
    (hw : w < 256) :
    (w = 0 ∨ 3 < w → gocl_kernel_set_work_dimension s w = (s, true)) ∧
    (1 ≤ w → w ≤ 3 →
      gocl_kernel_set_work_dimension s w = ({ s with work_dim := w }, false)) := by
  constructor
  · intro h
    unfold gocl_kernel_set_work_dimension
    rw [if_pos (by omega)]
  · intro h1 h3
    unfold gocl_kernel_set_work_dimension
    rw [if_neg (by omega)]

/-- Witness for C5 at concrete inputs 0 (violation), 4 (violation) and 2
(stored). -/
theorem set_work_dimension_contract_witness :
    gocl_kernel_set_work_dimension sampleKernel 0 = (sampleKernel, true) ∧
    gocl_kernel_set_work_dimension sampleKernel 4 = (sampleKernel, true) ∧
    gocl_kernel_set_work_dimension sampleKernel 2 =
      ({ sampleKernel with work_dim := 2 }, false) :=
  ⟨(set_work_dimension_contract sampleKernel 0 (by decide)).1 (by decide),
   (set_work_dimension_contract sampleKernel 4 (by decide)).1 (by decide),
   (set_work_dimension_contract sampleKernel 2 (by decide)).2 (by decide)
     (by decide)⟩

/-- Claim C6: a freshly created kernel — `gocl_kernel_init` run on the
zero-filled instance memory GObject hands it — has work dimensionality 1
and all three global and all three local work-size slots equal to 0. -/
theorem fresh_kernel_defaults (s : GoclKernelPrivate)
    (hg : s.global_work_size = WorkSize.zero)
    (hl : s.local_work_size = WorkSize.zero) :
    (gocl_kernel_init s).work_dim = 1 ∧
    (gocl_kernel_init s).global_work_size = WorkSize.zero ∧
    (gocl_kernel_init s).local_work_size = WorkSize.zero := by
  unfold gocl_kernel_init memset_zero_3_bytes
  rw [hg, hl]
  refine ⟨rfl, ?_, ?_⟩ <;> rfl

/-- Witness for C6 at a concrete zero-filled instance. -/
theorem fresh_kernel_defaults_witness :
    (gocl_kernel_init
        { kernel := 0, name := "", program := 0
          global_work_size := WorkSize.zero
          local_work_size := WorkSize.zero, work_dim := 0 }).work_dim = 1 ∧
    (gocl_kernel_init
        { kernel := 0, name := "", program := 0
          global_work_size := WorkSize.zero
          local_work_size := WorkSize.zero, work_dim := 0 }).global_work_size
      = WorkSize.zero ∧
    (gocl_kernel_init
        { kernel := 0, name := "", program := 0
          global_work_size := WorkSize.zero
          local_work_size := WorkSize.zero, work_dim := 0 }).local_work_size
      = WorkSize.zero :=
  fresh_kernel_defaults _ rfl rfl

/-- Claim C9: a second call to the same work-size setter overwrites the first
completely — only the last three values are stored (and nothing else in
the state changes), and a single setter call stores exactly its three
arguments into slots 1–3. -/
theorem work_size_setter_last_write_wins (s : GoclKernelPrivate)
    (a1 a2 a3 b1 b2 b3 : Nat) :
    gocl_kernel_set_global_work_size
        (gocl_kernel_set_global_work_size s a1 a2 a3) b1 b2 b3
      = { s with global_work_size := ⟨b1, b2, b3⟩ } ∧
    gocl_kernel_set_local_work_size
        (gocl_kernel_set_local_work_size s a1 a2 a3) b1 b2 b3
      = { s with local_work_size := ⟨b1, b2, b3⟩ } ∧
    (gocl_kernel_set_global_work_size s a1 a2 a3).global_work_size
      = ⟨a1, a2, a3⟩ ∧
    (gocl_kernel_set_local_work_size s a1 a2 a3).local_work_size
      = ⟨a1, a2, a3⟩ := by
  refine ⟨rfl, rfl, rfl, rfl⟩

/-- The submission call the synchronous run makes when the device has a
default queue `q`: built from the kernel's stored configuration, with each
work-size vector passed as NULL when its first slot is 0 and the wait-list
count taken from `g_list_length`. -/
theorem sync_run_call_some (self : GoclKernelPrivate) (device : GoclDevice)
    (ewl : List GoclEvent) (enqueue : EnqueueCall → Int × Nat)
    (waitErr : Int) (q : Nat) (hq : device.default_queue = some q) :
    (gocl_kernel_run_in_device_sync self device ewl enqueue waitErr).call =
      some { queue := q
             kernel := self.kernel
             work_dim := self.work_dim
             global_work_offset := none
             global_work_size :=
               if self.global_work_size.s1 = 0 then none
               else some self.global_work_size
             local_work_size :=
               if self.local_work_size.s1 = 0 then none
               else some self.local_work_size
             num_events_in_wait_list := ewl.length
             event_wait_list := (gocl_event_list_to_array ewl).1 } := by
  simp only [gocl_kernel_run_in_device_sync, hq]
  repeat' split
  all_goals rfl

/-- When the device has no default queue the synchronous run makes no
submission call. -/
theorem sync_run_call_none (self : GoclKernelPrivate) (device : GoclDevice)
    (ewl : List GoclEvent) (enqueue : EnqueueCall → Int × Nat)
    (waitErr : Int) (hq : device.default_queue = none) :
    (gocl_kernel_run_in_device_sync self device ewl enqueue waitErr).call
      = none := by
  simp only [gocl_kernel_run_in_device_sync, hq]

/-- The submission call the asynchronous run makes when the device has a
default queue `q`: as for the synchronous run except that the wait-list
count comes from `gocl_event_list_to_array`'s out parameter. -/
theorem async_run_call_some (self : GoclKernelPrivate) (device : GoclDevice)
    (ewl : List GoclEvent) (enqueue : EnqueueCall → Int × Nat) (q : Nat)
    (hq : device.default_queue = some q) :
    (gocl_kernel_run_in_device self device ewl enqueue).call =
      some { queue := q
             kernel := self.kernel
             work_dim := self.work_dim
             global_work_offset := none
             global_work_size :=
               if self.global_work_size.s1 = 0 then none
               else some self.global_work_size
             local_work_size :=
               if self.local_work_size.s1 = 0 then none
               else some self.local_work_size
             num_events_in_wait_list := (gocl_event_list_to_array ewl).2
             event_wait_list := (gocl_event_list_to_array ewl).1 } := by
  simp only [gocl_kernel_run_in_device, hq]
  repeat' split
  all_goals rfl

/-- When the device has no default queue the asynchronous run makes no
submission call. -/
theorem async_run_call_none (self : GoclKernelPrivate) (device : GoclDevice)
    (ewl : List GoclEvent) (enqueue : EnqueueCall → Int × Nat)
    (hq : device.default_queue = none) :
    (gocl_kernel_run_in_device self device ewl enqueue).call = none := by
  simp only [gocl_kernel_run_in_device, hq]

/-- Claim C4: whichever run call (synchronous or asynchronous) submits work, the
global work size reaches the native layer as NULL when the stored vector's
first slot is 0 — never as a zero-sized range — and as the stored
three-slot vector when the first slot is non-zero. -/
theorem run_global_size_absent_iff_first_zero (self : GoclKernelPrivate)
    (device : GoclDevice) (ewl : List GoclEvent)
    (enqueue : EnqueueCall → Int × Nat) (waitErr : Int) (c : EnqueueCall) :
    (gocl_kernel_run_in_device_sync self device ewl enqueue waitErr).call
        = some c ∨
    (gocl_kernel_run_in_device self device ewl enqueue).call = some c →
    (self.global_work_size.s1 = 0 → c.global_work_size = none) ∧
    (self.global_work_size.s1 ≠ 0 →
      c.global_work_size = some self.global_work_size) := by
  intro hc
  have hgws : c.global_work_size =
      if self.global_work_size.s1 = 0 then none
      else some self.global_work_size := by
    cases hq : device.default_queue with
    | none =>
        rcases hc with hc | hc
        · rw [sync_run_call_none self device ewl enqueue waitErr hq] at hc
          cases hc
        · rw [async_run_call_none self device ewl enqueue hq] at hc
          cases hc
    | some q =>
        rcases hc with hc | hc
        · rw [sync_run_call_some self device ewl enqueue waitErr q hq] at hc
          cases hc
          rfl
        · rw [async_run_call_some self device ewl enqueue q hq] at hc
          cases hc
          rfl
  constructor
  · intro h0
    rw [hgws, if_pos h0]
  · intro h0
    rw [hgws, if_neg h0]

/-- Witness for C4: the sample kernel (global size (32,32,0)) passes the
stored vector; the unsized sample kernel passes NULL. -/
theorem run_global_size_absent_iff_first_zero_witness :
    ((gocl_kernel_run_in_device_sync sampleKernel ⟨some 1⟩ []
        (fun _ => (0, 9)) 0).call =
      some { queue := 1, kernel := 42, work_dim := 2
             global_work_offset := none
             global_work_size := some ⟨32, 32, 0⟩
             local_work_size := some ⟨2, 2, 0⟩
             num_events_in_wait_list := 0, event_wait_list := none } ∨
     (gocl_kernel_run_in_device sampleKernel ⟨some 1⟩ []
        (fun _ => (0, 9))).call =
      some { queue := 1, kernel := 42, work_dim := 2
             global_work_offset := none
             global_work_size := some ⟨32, 32, 0⟩
             local_work_size := some ⟨2, 2, 0⟩
             num_events_in_wait_list := 0, event_wait_list := none }) ∧
    ({ queue := 1, kernel := 42, work_dim := 2
       global_work_offset := none
       global_work_size := some ⟨32, 32, 0⟩
       local_work_size := some ⟨2, 2, 0⟩
       num_events_in_wait_list := 0,
       event_wait_list := none } : EnqueueCall).global_work_size
      = some (⟨32, 32, 0⟩ : WorkSize) :=
  ⟨Or.inl (by decide),
   (run_global_size_absent_iff_first_zero sampleKernel ⟨some 1⟩ []
      (fun _ => (0, 9)) 0 _ (Or.inl (by decide))).2 (by decide)⟩

/-- Claim C7: a run call (synchronous or asynchronous) with an empty (or null)
dependency list passes wait-handle count 0 and no wait-handle array to the
native submission primitive, so the submission is ungated. -/
theorem run_empty_wait_list_ungated (self : GoclKernelPrivate)
    (device : GoclDevice) (enqueue : EnqueueCall → Int × Nat)
    (waitErr : Int) (c : EnqueueCall) :
    (gocl_kernel_run_in_device_sync self device [] enqueue waitErr).call
        = some c ∨
    (gocl_kernel_run_in_device self device [] enqueue).call = some c →
    c.num_events_in_wait_list = 0 ∧ c.event_wait_list = none := by
  intro hc
  cases hq : device.default_queue with
  | none =>
      rcases hc with hc | hc
      · rw [sync_run_call_none self device [] enqueue waitErr hq] at hc
        cases hc
      · rw [async_run_call_none self device [] enqueue hq] at hc
        cases hc
  | some q =>
      rcases hc with hc | hc
      · rw [sync_run_call_some self device [] enqueue waitErr q hq] at hc
        cases hc
        exact ⟨rfl, rfl⟩
      · rw [async_run_call_some self device [] enqueue q hq] at hc
        cases hc
        exact ⟨rfl, rfl⟩

/-- On the asynchronous path, when a default queue exists and the
submission primitive succeeds (error code 0), the returned token wraps the
native handle: it is Pending, its resolver has been stolen and never
invoked, and it snapshots the dependency list. -/
theorem async_run_event_success (self : GoclKernelPrivate)
    (device : GoclDevice) (ewl : List GoclEvent)
    (enqueue : EnqueueCall → Int × Nat) (q : Nat) (c : EnqueueCall)
    (hq : device.default_queue = some q)
    (hc : (gocl_kernel_run_in_device self device ewl enqueue).call = some c)
    (he : (enqueue c).1 = 0) :
    (gocl_kernel_run_in_device self device ewl enqueue).event =
      some { queue := some q
             native := some (enqueue c).2
             state := .pending
             hasResolver := false
             resolverInvocations := 0
             waitListSnapshot := ewl.map (fun d => d.native.getD 0) } := by
  rw [async_run_call_some self device ewl enqueue q hq] at hc
  cases hc
  simp only [gocl_kernel_run_in_device, hq, gocl_error_check_opencl,
    gocl_event_new, gocl_event_steal_resolver_func,
    gocl_event_set_event_wait_list, if_pos he]

/-- On the asynchronous path, when a default queue exists and the
submission primitive fails with a non-zero error code, the returned token
is the synthesized one: Resolved-Error carrying that code, resolver stolen
and invoked exactly once, no native handle. -/
theorem async_run_event_error (self : GoclKernelPrivate)
    (device : GoclDevice) (ewl : List GoclEvent)
    (enqueue : EnqueueCall → Int × Nat) (q : Nat) (c : EnqueueCall)
    (hq : device.default_queue = some q)
    (hc : (gocl_kernel_run_in_device self device ewl enqueue).call = some c)
    (he : (enqueue c).1 ≠ 0) :
    (gocl_kernel_run_in_device self device ewl enqueue).event =
      some { queue := some q
             native := none
             state := .resolvedError (enqueue c).1
             hasResolver := false
             resolverInvocations := 1
             waitListSnapshot := [] } := by
  rw [async_run_call_some self device ewl enqueue q hq] at hc
  cases hc
  simp only [gocl_kernel_run_in_device, hq, gocl_error_check_opencl,
    gocl_event_new, gocl_event_steal_resolver_func, invoke_resolver_func,
    if_neg he]

/-- Witness for C7 at a concrete submission with an empty list. -/
theorem run_empty_wait_list_ungated_witness :
    ({ queue := 1, kernel := 42, work_dim := 2
       global_work_offset := none
       global_work_size := some ⟨32, 32, 0⟩
       local_work_size := some ⟨2, 2, 0⟩
       num_events_in_wait_list := 0,
       event_wait_list := none } : EnqueueCall).num_events_in_wait_list = 0 ∧
    ({ queue := 1, kernel := 42, work_dim := 2
       global_work_offset := none
       global_work_size := some ⟨32, 32, 0⟩
       local_work_size := some ⟨2, 2, 0⟩
       num_events_in_wait_list := 0,
       event_wait_list := none } : EnqueueCall).event_wait_list = none :=
  run_empty_wait_list_ungated sampleKernel ⟨some 1⟩ (fun _ => (0, 9)) 0 _
    (Or.inr (by decide))

/-- Claim C1: when the native submission primitive fails during an asynchronous
run (a non-zero error code), the call still returns a token, and that token
is already in Resolved-Error state carrying that error code, its resolver
having been invoked inline exactly once — all before the call returns. -/
theorem async_submit_failure_resolved_error (self : GoclKernelPrivate)
    (device : GoclDevice) (ewl : List GoclEvent)
    (enqueue : EnqueueCall → Int × Nat) (q : Nat) (c : EnqueueCall)
    (hq : device.default_queue = some q)
    (hc : (gocl_kernel_run_in_device self device ewl enqueue).call = some c)
    (he : (enqueue c).1 ≠ 0) :
    ∃ ev, (gocl_kernel_run_in_device self device ewl enqueue).event = some ev
      ∧ ev.state = EventState.resolvedError (enqueue c).1
      ∧ ev.resolverInvocations = 1
      ∧ ev.hasResolver = false :=
  ⟨_, async_run_event_error self device ewl enqueue q c hq hc he,
    rfl, rfl, rfl⟩

/-- Witness for C1: a mock submission primitive failing with backend error
code 5 yields a token in Resolved-Error 5 whose resolver ran exactly
once. -/
theorem async_submit_failure_resolved_error_witness :
    ∃ ev, (gocl_kernel_run_in_device sampleKernel ⟨some 1⟩ []
        (fun _ => (5, 0))).event = some ev
      ∧ ev.state = EventState.resolvedError 5
      ∧ ev.resolverInvocations = 1
      ∧ ev.hasResolver = false :=
  async_submit_failure_resolved_error sampleKernel ⟨some 1⟩ []
    (fun _ => (5, 0)) 1
    { queue := 1, kernel := 42, work_dim := 2
      global_work_offset := none
      global_work_size := some ⟨32, 32, 0⟩
      local_work_size := some ⟨2, 2, 0⟩
      num_events_in_wait_list := 0, event_wait_list := none }
    rfl (by decide) (by decide)

/-- Claim C3 counterexample: on a device with no default queue the asynchronous
run returns NULL, not a token — the claim that a (non-null) token is
returned "including the case where the device has no default queue" is
false. -/
theorem async_no_queue_returns_null :
    (gocl_kernel_run_in_device sampleKernel ⟨none⟩ []
      (fun _ => (0, 0))).event = none := rfl

/-- Claim C3 (amended): the asynchronous run returns a non-null token exactly
when the device has a default queue; failures are then encoded in the
token's state, never in the return value.  With no default queue the call
returns NULL. -/
theorem async_token_iff_queue (self : GoclKernelPrivate)
    (device : GoclDevice) (ewl : List GoclEvent)
    (enqueue : EnqueueCall → Int × Nat) :
    ((gocl_kernel_run_in_device self device ewl enqueue).event).isSome
      = device.default_queue.isSome := by
  cases hq : device.default_queue with
  | none => simp [gocl_kernel_run_in_device, hq]
  | some q =>
      simp only [gocl_kernel_run_in_device, hq]
      repeat' split
      all_goals rfl

/-- Claim C10: when the native submission succeeds during an asynchronous run,
the returned token's resolver has been detached (stolen) before the token
reaches the caller, and it was never invoked — the token is still
Pending. -/
theorem async_success_resolver_stolen (self : GoclKernelPrivate)
    (device : GoclDevice) (ewl : List GoclEvent)
    (enqueue : EnqueueCall → Int × Nat) (q : Nat) (c : EnqueueCall)
    (hq : device.default_queue = some q)
    (hc : (gocl_kernel_run_in_device self device ewl enqueue).call = some c)
    (he : (enqueue c).1 = 0) :
    ∃ ev, (gocl_kernel_run_in_device self device ewl enqueue).event = some ev
      ∧ ev.hasResolver = false
      ∧ ev.resolverInvocations = 0
      ∧ ev.state = EventState.pending :=
  ⟨_, async_run_event_success self device ewl enqueue q c hq hc he,
    rfl, rfl, rfl⟩

/-- Witness for C10: a successful mock submission returns a Pending token
whose resolver was stolen and never invoked. -/
theorem async_success_resolver_stolen_witness :
    ∃ ev, (gocl_kernel_run_in_device sampleKernel ⟨some 1⟩ []
        (fun _ => (0, 7))).event = some ev
      ∧ ev.hasResolver = false
      ∧ ev.resolverInvocations = 0
      ∧ ev.state = EventState.pending :=
  async_success_resolver_stolen sampleKernel ⟨some 1⟩ []
    (fun _ => (0, 7)) 1
    { queue := 1, kernel := 42, work_dim := 2
      global_work_offset := none
      global_work_size := some ⟨32, 32, 0⟩
      local_work_size := some ⟨2, 2, 0⟩
      num_events_in_wait_list := 0, event_wait_list := none }
    rfl (by decide) (by decide)

/-- Claim C2 counterexample: with a working queue, a successful mock submission
and a wait primitive reporting failure status -5, the synchronous run still
returns success — so "the success flag is true if and only if both
submission and wait succeeded" is false: the source discards the status
`clWaitForEvents` returns. -/
theorem sync_run_ignores_wait_failure :
    (gocl_kernel_run_in_device_sync sampleKernel ⟨some 1⟩ []
        (fun _ => (0, 7)) (-5)).result = true ∧
    (gocl_kernel_run_in_device_sync sampleKernel ⟨some 1⟩ []
        (fun _ => (0, 7)) (-5)).waitStatus = some (-5) ∧
    (-5 : Int) ≠ 0 :=
  ⟨rfl, rfl, by decide⟩

/-- Claim C2 (amended): the synchronous run returns failure exactly when
the device has no default queue or the submission primitive fails; when a
submission was made, success holds iff the submission succeeded, and on
success the run waits on and releases the native completion handle the
submission produced — but the status the wait primitive reports is ignored
and cannot turn the result into failure. -/
theorem sync_run_success_iff_submission (self : GoclKernelPrivate)
    (device : GoclDevice) (ewl : List GoclEvent)
    (enqueue : EnqueueCall → Int × Nat) (waitErr : Int) :
    (device.default_queue = none →
      (gocl_kernel_run_in_device_sync self device ewl enqueue waitErr).result
        = false) ∧
    (∀ c, (gocl_kernel_run_in_device_sync self device ewl enqueue
            waitErr).call = some c →
      ((gocl_kernel_run_in_device_sync self device ewl enqueue waitErr).result
          = true ↔ (enqueue c).1 = 0) ∧
      ((enqueue c).1 = 0 →
        (gocl_kernel_run_in_device_sync self device ewl enqueue
            waitErr).waitedOn = some (enqueue c).2 ∧
        (gocl_kernel_run_in_device_sync self device ewl enqueue
            waitErr).released = some (enqueue c).2 ∧
        (gocl_kernel_run_in_device_sync self device ewl enqueue
            waitErr).waitStatus = some waitErr)) := by
  constructor
  · intro hq
    simp [gocl_kernel_run_in_device_sync, hq]
  · intro c hc
    cases hq : device.default_queue with
    | none =>
        rw [sync_run_call_none self device ewl enqueue waitErr hq] at hc
        cases hc
    | some q =>
        rw [sync_run_call_some self device ewl enqueue waitErr q hq] at hc
        injection hc with hc'
        simp only [gocl_kernel_run_in_device_sync, hq]
        rw [hc']
        rcases Bool.eq_false_or_eq_true
            (gocl_error_check_opencl_internal (enqueue c).1) with h | h
        · have hne : (enqueue c).1 ≠ 0 := by
            simpa [gocl_error_check_opencl_internal] using h
          simp [gocl_error_check_opencl_internal, hne]
        · have he0 : (enqueue c).1 = 0 := by
            simpa [gocl_error_check_opencl_internal] using h
          simp [gocl_error_check_opencl_internal, he0]

/-- Witness for C2 (amended) at a device with no default queue (failure)
and at a concrete successful run on a working queue. -/
theorem sync_run_success_iff_submission_witness :
    (gocl_kernel_run_in_device_sync sampleKernel ⟨none⟩ []
        (fun _ => (0, 7)) 0).result = false ∧
    ((gocl_kernel_run_in_device_sync sampleKernel ⟨some 1⟩ []
        (fun _ => (0, 7)) 0).result = true ↔ (0 : Int) = 0) ∧
    ((0 : Int) = 0 →
      (gocl_kernel_run_in_device_sync sampleKernel ⟨some 1⟩ []
          (fun _ => (0, 7)) 0).waitedOn = some 7 ∧
      (gocl_kernel_run_in_device_sync sampleKernel ⟨some 1⟩ []
          (fun _ => (0, 7)) 0).released = some 7 ∧
      (gocl_kernel_run_in_device_sync sampleKernel ⟨some 1⟩ []
          (fun _ => (0, 7)) 0).waitStatus = some 0) :=
  ⟨(sync_run_success_iff_submission sampleKernel ⟨none⟩ []
      (fun _ => (0, 7)) 0).1 rfl,
   (sync_run_success_iff_submission sampleKernel ⟨some 1⟩ []
      (fun _ => (0, 7)) 0).2
     { queue := 1, kernel := 42, work_dim := 2
       global_work_offset := none
       global_work_size := some ⟨32, 32, 0⟩
       local_work_size := some ⟨2, 2, 0⟩
       num_events_in_wait_list := 0, event_wait_list := none }
     rfl⟩

/-- Claim C8 counterexample: the byte size handed to the native argument-setting
primitive is computed in 64-bit `gsize` arithmetic, so at element count
2^62 it wraps to 0 instead of the claimed 4 * 2^62 — the claim as stated
over every element count is false. -/
theorem set_argument_int32_size_wraps :
    ((gocl_kernel_set_argument_int32 sampleKernel 0 (2 ^ 62) 0
        (fun _ => 0)).2).size = 0 ∧
    sizeof_cl_uint * 2 ^ 62 ≠ 0 := by
  constructor
  · show (sizeof_cl_uint * 2 ^ 62) % 2 ^ 64 = 0
    norm_num [sizeof_cl_uint]
  · norm_num [sizeof_cl_uint]

/-- Claim C8 (amended): for every element count whose byte size fits in 64 bits
(N < 2^62), the int32 argument-binding call passes exactly
`sizeof (cl_uint) * N` bytes together with the caller's buffer pointer to
the native argument-setting primitive; beyond that the 64-bit product
wraps. -/
theorem set_argument_int32_size_exact (self : GoclKernelPrivate)
    (index N buffer : Nat) (setArg : SetArgCall → Int)
    (hN : sizeof_cl_uint * N < 2 ^ 64) :
    (gocl_kernel_set_argument_int32 self index N buffer setArg).2 =
      { kernel := self.kernel, index := index
        size := sizeof_cl_uint * N, buffer := buffer } := by
  unfold gocl_kernel_set_argument_int32 gocl_kernel_set_argument
  rw [Nat.mod_eq_of_lt hN]

/-- Witness for C8 (amended): binding 3 int32 elements passes exactly 12
bytes and the caller's buffer pointer. -/
theorem set_argument_int32_size_exact_witness :
    (gocl_kernel_set_argument_int32 sampleKernel 2 3 99 (fun _ => 0)).2 =
      { kernel := 42, index := 2, size := 12, buffer := 99 } :=
  set_argument_int32_size_exact sampleKernel 2 3 99 (fun _ => 0) (by decide)
